import Mathlib

/-!
# Market Anomaly Detection System — verification of the detection core

Shallow embedding of the fraud-detection pipeline of the repository
(`backend/app/detection/…`).  Python floats are modelled as exact rationals
(`ℚ`); Python dicts that the code iterates over are modelled as association
lists with distinct keys (Python dicts preserve insertion order, and
`dict.get(k, d)` becomes a first-match lookup with a default); code that can
raise is modelled in `Except String`.

Embedded source:
* `app/detection/scoring/risk_scorer.py` — `RiskScorer.calculate_composite_score`,
  `RiskScorer.apply_business_rules`;
* `app/detection/engine.py` — `DetectionEngine._aggregate_scores`,
  `DetectionEngine._get_severity`, `DetectionEngine.process_transaction`
  (detect / aggregate / classify / decide steps);
* `app/detection/scoring/normalizer.py` — `ScoreNormalizer.combine_scores`;
* `app/detection/detectors/statistical.py` — `StatisticalDetector.detect`;
* `app/detection/detectors/base.py` — `DetectionResult`, `clamp_score`.
-/

namespace MarketAnomaly

/-- First-match lookup in an association list with an explicit default,
modelling the Python dict access `d.get(k, default)`. -/
def dictGet {α : Type} (d : List (String × α)) (k : String) (default : α) : α :=
  match d with
  | [] => default
  | (k', v) :: rest => if k = k' then v else dictGet rest k default

/-- Lookup returning an `Option`, modelling the Python membership test
`k in d` combined with `d[k]`. -/
def dictFind {α : Type} (d : List (String × α)) (k : String) : Option α :=
  match d with
  | [] => none
  | (k', v) :: rest => if k = k' then some v else dictFind rest k

/-- Dataclass `DetectionResult` from `app/detection/detectors/base.py`:
score (0–100 risk score), confidence (0–1), explanations, metadata
(string-keyed diagnostic mapping; values elided to strings). -/
structure DetectionResult where
  score : ℚ
  confidence : ℚ := 1
  explanations : List String := []
  metadata : List (String × String) := []
deriving DecidableEq

/-- Enum `AlertSeverity` from `app/models/enums.py` (four alert tiers). -/
inductive AlertSeverity
  | CRITICAL
  | HIGH
  | MEDIUM
  | LOW
deriving DecidableEq

/-- Default detector weights: `{"statistical": 0.25, "behavioral": 0.35,
"ml": 0.40}` (both `RiskScorer.DEFAULT_WEIGHTS` and
`DetectionEngine.__init__`). -/
def DEFAULT_WEIGHTS : List (String × ℚ) :=
  [("statistical", 25/100), ("behavioral", 35/100), ("ml", 40/100)]

/-! ## Python `round(x, 2)`

The Python builtin round uses round-half-to-even.  On our rational model,
`round(x, 2)` is: scale by 100, round half to even, scale back. -/

/-- Round a rational to the nearest integer, ties to even
(the Python builtin round on a one-argument call). -/
def roundHalfEven (x : ℚ) : ℤ :=
  let f := ⌊x⌋
  let r := x - f
  if r < 1/2 then f
  else if 1/2 < r then f + 1
  else if Even f then f else f + 1

/-- Model of the Python call `round(x, 2)`. -/
def round2 (x : ℚ) : ℚ := (roundHalfEven (x * 100) : ℚ) / 100

/-! ## `DetectionEngine._aggregate_scores` (engine.py lines 187–211) -/

/-- Engine-side `total_weight` accumulated by `_aggregate_scores`: for each entry of the
detector-result dict, `weight = self.detector_weights.get(name, 0.0)` and
`effective_weight = weight * result.confidence` are summed. -/
def totalWeight (weights : List (String × ℚ))
    (detector_results : List (String × DetectionResult)) : ℚ :=
  (detector_results.map
    (fun p => dictGet weights p.1 0 * p.2.confidence)).sum

/-- Engine-side `weighted_sum` accumulated by `_aggregate_scores`:
`result.score * effective_weight` summed over the dict entries. -/
def weightedSum (weights : List (String × ℚ))
    (detector_results : List (String × DetectionResult)) : ℚ :=
  (detector_results.map
    (fun p => p.2.score * (dictGet weights p.1 0 * p.2.confidence))).sum

/-- Method `DetectionEngine._aggregate_scores`: weighted average of detector scores,
weights scaled by confidence; `if total_weight == 0: return 50.0` (neutral),
otherwise `weighted_sum / total_weight`. -/
def aggregate_scores (weights : List (String × ℚ))
    (detector_results : List (String × DetectionResult)) : ℚ :=
  if totalWeight weights detector_results = 0 then 50
  else weightedSum weights detector_results / totalWeight weights detector_results

/-! ## `RiskScorer.calculate_composite_score` (risk_scorer.py lines 54–114) -/

/-- Model of `confidences.get(detector, 1.0)`: confidence lookup with default 1. -/
def getConf (confidences : List (String × ℚ)) (detector : String) : ℚ :=
  dictGet confidences detector 1

/-- Scorer-side `total_weight`: `weight = self.weights.get(detector, 0.0)`,
`confidence = confidences.get(detector, 1.0)`,
`effective_weight = weight * confidence`, summed over `detector_scores`. -/
def scTotalWeight (weights : List (String × ℚ))
    (detector_scores : List (String × ℚ))
    (confidences : List (String × ℚ)) : ℚ :=
  (detector_scores.map
    (fun p => dictGet weights p.1 0 * getConf confidences p.1)).sum

/-- Scorer-side `weighted_sum`: `contribution = score * effective_weight`
summed over `detector_scores`. -/
def scWeightedSum (weights : List (String × ℚ))
    (detector_scores : List (String × ℚ))
    (confidences : List (String × ℚ)) : ℚ :=
  (detector_scores.map
    (fun p => p.2 * (dictGet weights p.1 0 * getConf confidences p.1))).sum

/-- The local variable `composite_score` of `calculate_composite_score`
before rounding: `weighted_sum / total_weight` if `total_weight > 0`,
else the neutral `50.0`. -/
def compositeRaw (weights : List (String × ℚ))
    (detector_scores : List (String × ℚ))
    (confidences : List (String × ℚ)) : ℚ :=
  if 0 < scTotalWeight weights detector_scores confidences then
    scWeightedSum weights detector_scores confidences /
      scTotalWeight weights detector_scores confidences
  else 50

/-- One entry of the scorer-side `score_breakdown` dict. -/
structure BreakdownEntry where
  raw_score : ℚ
  weight : ℚ
  confidence : ℚ
  contribution : ℚ
deriving DecidableEq

/-- Entries `score_breakdown[detector]` as built in the loop. -/
def scoreBreakdown (weights : List (String × ℚ))
    (detector_scores : List (String × ℚ))
    (confidences : List (String × ℚ)) : List (String × BreakdownEntry) :=
  detector_scores.map (fun p =>
    (p.1,
      { raw_score := p.2
        weight := dictGet weights p.1 0
        confidence := getConf confidences p.1
        contribution := p.2 * (dictGet weights p.1 0 * getConf confidences p.1) }))

/-- Dataclass `ScoringResult` from risk_scorer.py. -/
structure ScoringResult where
  composite_score : ℚ
  component_scores : List (String × ℚ)
  score_breakdown : List (String × BreakdownEntry)
  confidence : ℚ
deriving DecidableEq

/-- Scorer-side `overall_confidence`:
`sum(c * weights.get(d, 0) for d, c in confidences.items())
 / sum(weights.get(d, 0) for d in confidences)` when `confidences` is
non-empty, else `1.0`.  The denominator is **not** guarded in the source:
`sum` of the assigned weights of the confidence keys can be zero, in which
case Python raises `ZeroDivisionError`; we surface that as `.error`. -/
def overallConfidence (weights : List (String × ℚ))
    (confidences : List (String × ℚ)) : Except String ℚ :=
  if confidences = [] then .ok 1
  else
    let den := (confidences.map (fun p => dictGet weights p.1 0)).sum
    if den = 0 then .error "ZeroDivisionError"
    else .ok ((confidences.map (fun p => p.2 * dictGet weights p.1 0)).sum / den)

/-- Method `RiskScorer.calculate_composite_score(detector_scores, confidences)`.
`confidences = confidences or {k: 1.0 for k in detector_scores}` replaces
both `None` and an empty dict (falsy) by the all-ones default.  The returned
`composite_score` and `confidence` are rounded to two decimals
(`round(·, 2)`). -/
def calculate_composite_score (weights : List (String × ℚ))
    (detector_scores : List (String × ℚ))
    (confidences? : Option (List (String × ℚ))) : Except String ScoringResult :=
  let confidences :=
    match confidences? with
    | none => detector_scores.map (fun p => (p.1, (1 : ℚ)))
    | some c => if c = [] then detector_scores.map (fun p => (p.1, (1 : ℚ))) else c
  match overallConfidence weights confidences with
  | .error e => .error e
  | .ok oc =>
      .ok { composite_score := round2 (compositeRaw weights detector_scores confidences)
            component_scores := detector_scores
            score_breakdown := scoreBreakdown weights detector_scores confidences
            confidence := round2 oc }

/-! ## `RiskScorer.apply_business_rules` (risk_scorer.py lines 116–144) -/

/-- The `rules_context` flags consulted by `apply_business_rules`
(Python `rules_context.get(...)` truthiness on a dict of flags). -/
structure RulesContext where
  is_vip_customer : Bool := false
  matches_known_pattern : Bool := false
  verified_merchant : Bool := false
  high_risk_country : Bool := false
deriving DecidableEq

/-- Method `RiskScorer.apply_business_rules(base_score, rules_context)`: in source
order — VIP ×0.9, known-pattern floor `max(·, 80)`, verified merchant ×0.85,
high-risk country `min(100, · + 15)` — then clamp
`max(0.0, min(100.0, adjusted_score))`. -/
def apply_business_rules (base_score : ℚ) (rules_context : RulesContext) : ℚ :=
  let s1 := if rules_context.is_vip_customer then base_score * (9/10) else base_score
  let s2 := if rules_context.matches_known_pattern then max s1 80 else s1
  let s3 := if rules_context.verified_merchant then s2 * (85/100) else s2
  let s4 := if rules_context.high_risk_country then min 100 (s3 + 15) else s3
  max 0 (min 100 s4)

/-! ## `DetectionEngine._get_severity` (engine.py lines 213–222) -/

/-- Method `DetectionEngine._get_severity(score)`: ≥90 CRITICAL, ≥70 HIGH,
≥50 MEDIUM, else LOW. -/
def get_severity (score : ℚ) : AlertSeverity :=
  if 90 ≤ score then .CRITICAL
  else if 70 ≤ score then .HIGH
  else if 50 ≤ score then .MEDIUM
  else .LOW

/-! ## `DetectionEngine.process_transaction` (engine.py lines 97–177)

Feature extraction happens before the detector loop (its failure is fatal by
design and out of scope here); the loop body is
`try: result = await detector.detect(features) except: neutral`.  We model
the detect step by its observable outcome per configured detector: a pair of
the detector field `name` paired with `some result` (normal return) or `none` (the
detector raised).  The timing, logging and metrics calls carry no data into
the output fields we model. -/

/-- The neutral `DetectionResult` substituted for a failed detector:
`DetectionResult(score=50.0, confidence=0.0, explanations=["Detector unavailable"])`. -/
def neutralResult : DetectionResult :=
  { score := 50, confidence := 0, explanations := ["Detector unavailable"] }

/-- Step 2 of `process_transaction`: run every configured detector, replacing
an exception (`none`) by `neutralResult` and keeping normal results. -/
def runDetectors (detector_runs : List (String × Option DetectionResult)) :
    List (String × DetectionResult) :=
  detector_runs.map (fun p => (p.1, p.2.getD neutralResult))

/-- Dataclass `DetectionOutput` (engine.py lines 42–53); `transaction_id`,
`feature_values` and `processing_time_ms` are pass-through / wall-clock
fields and are not modelled. -/
structure DetectionOutput where
  risk_score : ℚ
  severity : AlertSeverity
  should_alert : Bool
  detector_scores : List (String × ℚ)
  explanations : List String
deriving DecidableEq

/-- Steps 2–5 of `DetectionEngine.process_transaction`: detect (with
per-detector failure isolation), aggregate, classify, decide
(`should_alert = composite_score >= self.risk_threshold_alert`),
and bundle the output (`risk_score = round(composite_score, 2)`,
explanations concatenated in detector registration order). -/
def process_transaction (risk_threshold_alert : ℚ)
    (detector_weights : List (String × ℚ))
    (detector_runs : List (String × Option DetectionResult)) : DetectionOutput :=
  let detector_results := runDetectors detector_runs
  let composite_score := aggregate_scores detector_weights detector_results
  { risk_score := round2 composite_score
    severity := get_severity composite_score
    should_alert := decide (risk_threshold_alert ≤ composite_score)
    detector_scores := detector_results.map (fun p => (p.1, p.2.score))
    explanations := detector_results.flatMap (fun p => p.2.explanations) }

/-! ## `ScoreNormalizer.combine_scores` (normalizer.py lines 124–161) -/

/-- Method `ScoreNormalizer.combine_scores(scores, method, weights)`.  Empty `scores`
returns `0.0` before the method is examined.  Methods: `mean`, `weighted`
(all-ones default weights, `0.0` on zero total weight), `max`, `rms`
(the Python call `math.sqrt` modelled by `Rat.sqrt`).  Any other method raises
`ValueError(f"Unknown combination method: {method}")`. -/
def combine_scores (scores : List ℚ) (method : String)
    (weights : Option (List ℚ)) : Except String ℚ :=
  if scores = [] then .ok 0
  else if method = "mean" then .ok (scores.sum / scores.length)
  else if method = "weighted" then
    let ws := weights.getD (List.replicate scores.length 1)
    let total_weight := ws.sum
    if total_weight = 0 then .ok 0
    else .ok (((scores.zip ws).map (fun p => p.1 * p.2)).sum / total_weight)
  else if method = "max" then .ok (scores.foldl max (scores.headD 0))
  else if method = "rms" then
    .ok (Rat.sqrt ((scores.map (fun s => s ^ 2)).sum / scores.length))
  else .error ("Unknown combination method: " ++ method)

/-! ## `StatisticalDetector.detect` (statistical.py lines 36–109)

The feature dict is consulted at six keys; presence (`is not None`) matters
for the confidence computation, so each consulted feature is an `Option`
field.  Explanation strings are kept up to the elided f-string number
formatting. -/

/-- The feature-dict keys read by `StatisticalDetector.detect`, with
`none` for an absent key (`features.get(k)` default). -/
structure StatFeatures where
  amount : Option ℚ := none
  amount_zscore : Option ℚ := none
  is_unusual_hour : Option Bool := none
  hourly_transaction_count : Option ℚ := none
  geo_risk_score : Option ℚ := none
  is_new_device : Option Bool := none
deriving DecidableEq

/-- Count `data_points` of `StatisticalDetector.detect`: the count of present
(`is not None`) values among the four keys `amount`, `amount_zscore`,
`hourly_transaction_count`, `geo_risk_score`. -/
def dataPoints (features : StatFeatures) : ℕ :=
  (if features.amount.isSome then 1 else 0) +
  (if features.amount_zscore.isSome then 1 else 0) +
  (if features.hourly_transaction_count.isSome then 1 else 0) +
  (if features.geo_risk_score.isSome then 1 else 0)

/-- Method `StatisticalDetector.detect(features)`: thresholds
`HIGH_AMOUNT_THRESHOLD = 10000`, `ZSCORE_THRESHOLD = 3.0`,
`VELOCITY_THRESHOLD = 5`; running score with per-rule caps, clamped to
[0,100] by `clamp_score`; `confidence = min(1.0, data_points / 3)`. -/
def statistical_detect (features : StatFeatures) : DetectionResult :=
  let amount := features.amount.getD 0
  let amount_zscore := features.amount_zscore.getD 0
  let s1 : ℚ := if 10000 < amount then min 30 (amount / 10000 * 15) else 0
  let s2 : ℚ := s1 + (if 3 < |amount_zscore| then min 25 (|amount_zscore| * 5) else 0)
  let s3 : ℚ := s2 + (if features.is_unusual_hour.getD false then 15 else 0)
  let hourly_count := features.hourly_transaction_count.getD 0
  let s4 : ℚ := s3 + (if 5 < hourly_count then min 20 ((hourly_count - 5) * 5) else 0)
  let geo_risk := features.geo_risk_score.getD 0
  let s5 : ℚ := s4 + (if 50 < geo_risk then geo_risk * (2/10) else 0)
  let s6 : ℚ := s5 + (if features.is_new_device.getD false then 10 else 0)
  let final_score := max 0 (min 100 s6)
  let confidence : ℚ := min 1 ((dataPoints features : ℚ) / 3)
  { score := final_score
    confidence := confidence
    explanations :=
      (if 10000 < amount then ["High transaction amount"] else []) ++
      (if 3 < |amount_zscore| then ["Amount deviation"] else []) ++
      (if features.is_unusual_hour.getD false then ["Transaction at unusual hour"] else []) ++
      (if 5 < hourly_count then ["High transaction velocity"] else []) ++
      (if 80 < geo_risk then ["High-risk geographic location"] else []) ++
      (if features.is_new_device.getD false then ["New device fingerprint"] else [])
    metadata := [("detector", "statistical"), ("version", "1.0.0")] }

/-- Presence of each of the six consulted feature keys, indexed for
quantifying over possible "tracked field" subsets (0 = amount,
1 = amount_zscore, 2 = is_unusual_hour, 3 = hourly_transaction_count,
4 = geo_risk_score, 5 = is_new_device). -/
def presentAt (features : StatFeatures) : Fin 6 → Bool
  | 0 => features.amount.isSome
  | 1 => features.amount_zscore.isSome
  | 2 => features.is_unusual_hour.isSome
  | 3 => features.hourly_transaction_count.isSome
  | 4 => features.geo_risk_score.isSome
  | 5 => features.is_new_device.isSome

/-- A `StatFeatures` value with every consulted key present except the one
at index `i` (used to probe which keys the confidence actually tracks). -/
def allBut (i : Fin 6) : StatFeatures :=
  { amount := if i = 0 then none else some 100
    amount_zscore := if i = 1 then none else some 0
    is_unusual_hour := if i = 2 then none else some false
    hourly_transaction_count := if i = 3 then none else some 1
    geo_risk_score := if i = 4 then none else some 10
    is_new_device := if i = 5 then none else some false }

/-- Scores dict handed from the engine to the scorer view:
`{name: r.score for name, r in detector_results.items()}`
(the same mapping `process_transaction` exposes as `detector_scores`). -/
def scoresOf (detector_results : List (String × DetectionResult)) : List (String × ℚ) :=
  detector_results.map (fun p => (p.1, p.2.score))

/-- Confidences dict of the engine results:
`{name: r.confidence for name, r in detector_results.items()}`. -/
def confsOf (detector_results : List (String × DetectionResult)) : List (String × ℚ) :=
  detector_results.map (fun p => (p.1, p.2.confidence))


/-! ## Theorems -/

/-- Clamping to [0,100] keeps any value in range. -/
theorem clamp_mem (x : ℚ) : 0 ≤ max 0 (min 100 x) ∧ max 0 (min 100 x) ≤ 100 :=
  ⟨le_max_left _ _, max_le (by norm_num) (min_le_left _ _)⟩

/-- C2 counterexample: with base score 50 (inside [0,100]) and a rules
context that sets both `matches_known_pattern` and `verified_merchant`,
`apply_business_rules` returns 68 < 80: the verified-merchant discount runs
after the known-pattern floor and pulls the score back below 80. -/
theorem c2_known_pattern_counterexample :
    apply_business_rules 50
      { matches_known_pattern := true, verified_merchant := true } = 68 ∧
    ¬ (80 ≤ apply_business_rules 50
      { matches_known_pattern := true, verified_merchant := true }) := by
  constructor <;> norm_num [apply_business_rules, min_def, max_def]

/-- C2 (amended): for every base score and rules context, the four rules
apply in the fixed source order (VIP ×0.9, known-pattern floor to 80,
verified-merchant ×0.85, high-risk-country +15 capped at 100) and the result
is clamped to [0,100]; moreover, whenever `matches_known_pattern` is set and
`verified_merchant` is NOT set, the returned score is at least 80. -/
theorem c2_business_rules (base_score : ℚ) (rules_context : RulesContext)
    (_hlo : 0 ≤ base_score) (_hhi : base_score ≤ 100) :
    (0 ≤ apply_business_rules base_score rules_context ∧
      apply_business_rules base_score rules_context ≤ 100) ∧
    (rules_context.matches_known_pattern = true →
      rules_context.verified_merchant = false →
      80 ≤ apply_business_rules base_score rules_context) := by
  obtain ⟨v, p, m, c⟩ := rules_context
  constructor
  · exact clamp_mem _
  · intro hp hm
    simp only at hp hm
    subst hp; subst hm
    unfold apply_business_rules
    dsimp only
    simp only [Bool.false_eq_true, if_false, if_true, ite_true, ite_false, eq_self_iff_true]
    have h1 : (80:ℚ) ≤ max (if v = true then base_score * (9/10) else base_score) 80 :=
      le_max_right _ _
    rcases c with _ | _
    · simp only [Bool.false_eq_true, if_false]
      exact le_trans (le_min (by norm_num) h1) (le_max_right _ _)
    · simp only [if_true]
      exact le_trans (le_min (by norm_num) (le_min (by norm_num) (by linarith)))
        (le_max_right _ _)

/-- C2 witness: base 50 with known-pattern and high-risk-country flags set
(verified-merchant unset) yields a score of at least 80. -/
theorem c2_business_rules_witness :
    80 ≤ apply_business_rules 50
      { matches_known_pattern := true, high_risk_country := true } :=
  (c2_business_rules 50 _ (by norm_num) (by norm_num)).2 rfl rfl

/-- C3: the severity map is a four-tier map with boundaries closed above:
scores ≥ 90 are CRITICAL, [70, 90) HIGH, [50, 70) MEDIUM, below 50 LOW. -/
theorem c3_severity_tiers (score : ℚ) :
    (90 ≤ score → get_severity score = .CRITICAL) ∧
    (70 ≤ score → score < 90 → get_severity score = .HIGH) ∧
    (50 ≤ score → score < 70 → get_severity score = .MEDIUM) ∧
    (score < 50 → get_severity score = .LOW) := by
  unfold get_severity
  refine ⟨fun h => if_pos h, fun h h' => ?_, fun h h' => ?_, fun h => ?_⟩
  · rw [if_neg (by linarith), if_pos h]
  · rw [if_neg (by linarith), if_neg (by linarith), if_pos h]
  · rw [if_neg (by linarith), if_neg (by linarith), if_neg (by linarith)]

/-- C3 witness: 90.0 → CRITICAL, 89.99 → HIGH, 70.0 → HIGH, 49.99 → LOW. -/
theorem c3_severity_tiers_witness :
    get_severity 90 = .CRITICAL ∧ get_severity (8999/100) = .HIGH ∧
    get_severity 70 = .HIGH ∧ get_severity (4999/100) = .LOW :=
  ⟨(c3_severity_tiers 90).1 (by norm_num),
   (c3_severity_tiers (8999/100)).2.1 (by norm_num) (by norm_num),
   (c3_severity_tiers 70).2.1 (by norm_num) (by norm_num),
   (c3_severity_tiers (4999/100)).2.2.2 (by norm_num)⟩

/-- C1: at the zero-effective-weight degenerate input the engine aggregation
does return the neutral 50, but `calculate_composite_score` raises
`ZeroDivisionError` instead of returning a well-formed result: with a
detector name outside the weight map (assigned weight 0, so the total
effective weight is 0), the unguarded overall-confidence denominator
`sum(weights.get(d, 0) for d in confidences)` is zero. -/
theorem c1_scorer_zero_weight_division :
    aggregate_scores DEFAULT_WEIGHTS [("other", { score := 80, confidence := 1 })] = 50 ∧
    calculate_composite_score DEFAULT_WEIGHTS [("other", 80)] (some [("other", 1)]) =
      .error "ZeroDivisionError" := by
  constructor
  · simp [aggregate_scores, totalWeight, weightedSum, dictGet, DEFAULT_WEIGHTS]
  · simp [calculate_composite_score, overallConfidence, dictGet, DEFAULT_WEIGHTS]

/-- C4: a detector that raises is replaced by the neutral result
(score 50, confidence 0, explanation "Detector unavailable"); every other
detector result is kept unchanged, and the pipeline still produces a
complete `DetectionOutput` with one detector-score entry per configured
detector and the substitute explanation present in the merged list. -/
theorem c4_detector_fault_isolation (risk_threshold_alert : ℚ)
    (detector_weights : List (String × ℚ))
    (detector_runs : List (String × Option DetectionResult)) (n : String)
    (hfail : (n, (none : Option DetectionResult)) ∈ detector_runs) :
    (n, neutralResult) ∈ runDetectors detector_runs ∧
    (∀ m r, (m, some r) ∈ detector_runs → (m, r) ∈ runDetectors detector_runs) ∧
    (process_transaction risk_threshold_alert detector_weights
        detector_runs).detector_scores.length = detector_runs.length ∧
    "Detector unavailable" ∈
      (process_transaction risk_threshold_alert detector_weights
        detector_runs).explanations := by
  refine ⟨?_, ?_, ?_, ?_⟩
  · simpa [runDetectors] using
      List.mem_map_of_mem (fun p => (p.1, p.2.getD neutralResult)) hfail
  · intro m r hm
    simpa [runDetectors] using
      List.mem_map_of_mem (fun p => (p.1, p.2.getD neutralResult)) hm
  · simp [process_transaction, runDetectors]
  · have hmem : (n, neutralResult) ∈ runDetectors detector_runs := by
      simpa [runDetectors] using
        List.mem_map_of_mem (fun p => (p.1, p.2.getD neutralResult)) hfail
    simp only [process_transaction]
    exact List.mem_flatMap.mpr ⟨(n, neutralResult), hmem, by simp [neutralResult]⟩

/-- C4 witness: with the behavioral detector raising and the other two
returning normally, the neutral substitute appears, the normal results are
kept, the output is complete, and the substitute explanation is merged. -/
theorem c4_detector_fault_isolation_witness :
    ("behavioral", neutralResult) ∈ runDetectors
      [("statistical", some { score := 80, confidence := 1 }),
       ("behavioral", none),
       ("ml", some { score := 60, confidence := 1/2 })] ∧
    "Detector unavailable" ∈
      (process_transaction 50 DEFAULT_WEIGHTS
        [("statistical", some { score := 80, confidence := 1 }),
         ("behavioral", none),
         ("ml", some { score := 60, confidence := 1/2 })]).explanations :=
  ⟨(c4_detector_fault_isolation 50 DEFAULT_WEIGHTS _ "behavioral" (by simp)).1,
   (c4_detector_fault_isolation 50 DEFAULT_WEIGHTS _ "behavioral" (by simp)).2.2.2⟩

/-- C5 counterexample: with an empty score list, `combine_scores` returns
`0.0` before ever looking at the method, so an unknown method does not
raise. -/
theorem c5_empty_scores_counterexample :
    combine_scores [] "bogus" none = .ok 0 := rfl

/-- C5 (amended): for every NON-empty score list and optional weight list,
a method other than mean, weighted, max, rms is rejected with the
validation error `Unknown combination method`. -/
theorem c5_unknown_method_error (scores : List ℚ) (method : String)
    (weights : Option (List ℚ)) (hne : scores ≠ [])
    (h1 : method ≠ "mean") (h2 : method ≠ "weighted") (h3 : method ≠ "max")
    (h4 : method ≠ "rms") :
    combine_scores scores method weights =
      .error ("Unknown combination method: " ++ method) := by
  unfold combine_scores
  rw [if_neg hne, if_neg h1, if_neg h2, if_neg h3, if_neg h4]

/-- C5 witness: the unknown method "bogus" on scores [10, 20] errors. -/
theorem c5_unknown_method_error_witness :
    combine_scores [10, 20] "bogus" none =
      .error ("Unknown combination method: " ++ "bogus") :=
  c5_unknown_method_error [10, 20] "bogus" none (by simp) (by decide) (by decide)
    (by decide) (by decide)

/-- Confidence lookups ignore a leading entry with a different key. -/
theorem getConf_cons_ne (n k : String) (c : ℚ) (cs : List (String × ℚ))
    (h : n ≠ k) : getConf ((k, c) :: cs) n = getConf cs n := by
  simp [getConf, dictGet, h]

/-- A sum over score entries is unchanged when the confidence dict gains a
leading entry whose key occurs in no score entry. -/
theorem sum_getConf_cons (F : String → ℚ → ℚ → ℚ)
    (detector_scores : List (String × ℚ)) (n : String) (c : ℚ)
    (confidences : List (String × ℚ))
    (h : ∀ p ∈ detector_scores, p.1 ≠ n) :
    (detector_scores.map
        (fun p => F p.1 p.2 (getConf ((n, c) :: confidences) p.1))).sum =
      (detector_scores.map (fun p => F p.1 p.2 (getConf confidences p.1))).sum := by
  congr 1
  apply List.map_congr_left
  intro p hp
  rw [getConf_cons_ne _ _ _ _ (h p hp)]

/-- Unfolding of `scoresOf` on a cons cell. -/
theorem scoresOf_cons (n : String) (r : DetectionResult)
    (tl : List (String × DetectionResult)) :
    scoresOf ((n, r) :: tl) = (n, r.score) :: scoresOf tl := rfl

/-- Unfolding of `confsOf` on a cons cell. -/
theorem confsOf_cons (n : String) (r : DetectionResult)
    (tl : List (String × DetectionResult)) :
    confsOf ((n, r) :: tl) = (n, r.confidence) :: confsOf tl := rfl

/-- One step of the scorer-side total-weight sum. -/
theorem scTotalWeight_cons (w : List (String × ℚ)) (p : String × ℚ)
    (ds cs : List (String × ℚ)) :
    scTotalWeight w (p :: ds) cs =
      dictGet w p.1 0 * getConf cs p.1 + scTotalWeight w ds cs := by
  simp [scTotalWeight]

/-- One step of the scorer-side weighted sum. -/
theorem scWeightedSum_cons (w : List (String × ℚ)) (p : String × ℚ)
    (ds cs : List (String × ℚ)) :
    scWeightedSum w (p :: ds) cs =
      p.2 * (dictGet w p.1 0 * getConf cs p.1) + scWeightedSum w ds cs := by
  simp [scWeightedSum]

/-- One step of the engine-side total-weight sum. -/
theorem totalWeight_cons (w : List (String × ℚ)) (p : String × DetectionResult)
    (tl : List (String × DetectionResult)) :
    totalWeight w (p :: tl) =
      dictGet w p.1 0 * p.2.confidence + totalWeight w tl := by
  simp [totalWeight]

/-- One step of the engine-side weighted sum. -/
theorem weightedSum_cons (w : List (String × ℚ)) (p : String × DetectionResult)
    (tl : List (String × DetectionResult)) :
    weightedSum w (p :: tl) =
      p.2.score * (dictGet w p.1 0 * p.2.confidence) + weightedSum w tl := by
  simp [weightedSum]

/-- The scorer-side total weight ignores a confidence entry for a key that
appears in no score entry. -/
theorem scTotalWeight_confs_cons (w ds : List (String × ℚ)) (n : String) (c : ℚ)
    (cs : List (String × ℚ)) (h : ∀ p ∈ ds, p.1 ≠ n) :
    scTotalWeight w ds ((n, c) :: cs) = scTotalWeight w ds cs := by
  unfold scTotalWeight
  exact sum_getConf_cons (fun k _ c => dictGet w k 0 * c) ds n c cs h

/-- The scorer-side weighted sum ignores a confidence entry for a key that
appears in no score entry. -/
theorem scWeightedSum_confs_cons (w ds : List (String × ℚ)) (n : String) (c : ℚ)
    (cs : List (String × ℚ)) (h : ∀ p ∈ ds, p.1 ≠ n) :
    scWeightedSum w ds ((n, c) :: cs) = scWeightedSum w ds cs := by
  unfold scWeightedSum
  exact sum_getConf_cons (fun k s c => s * (dictGet w k 0 * c)) ds n c cs h

/-- With pairwise-distinct detector names (a dict), the scorer-side sums
over the scores/confidences dicts derived from the engine results coincide
with the engine-side sums. -/
theorem scSums_eq (w : List (String × ℚ))
    (rs : List (String × DetectionResult))
    (hnd : (rs.map Prod.fst).Nodup) :
    scTotalWeight w (scoresOf rs) (confsOf rs) = totalWeight w rs ∧
    scWeightedSum w (scoresOf rs) (confsOf rs) = weightedSum w rs := by
  induction rs with
  | nil =>
      simp [scTotalWeight, totalWeight, scWeightedSum, weightedSum, scoresOf, confsOf]
  | cons hd tl ih =>
      obtain ⟨n, r⟩ := hd
      rw [List.map_cons, List.nodup_cons] at hnd
      obtain ⟨hn, hnd2⟩ := hnd
      simp only at hn
      obtain ⟨ih1, ih2⟩ := ih hnd2
      have hkeys : ∀ p ∈ scoresOf tl, p.1 ≠ n := by
        intro p hp hpn
        apply hn
        simp only [scoresOf, List.mem_map] at hp
        obtain ⟨q, hq, rfl⟩ := hp
        rw [← hpn]
        exact List.mem_map_of_mem Prod.fst hq
      have hhead : getConf ((n, r.confidence) :: confsOf tl) n = r.confidence := by
        simp [getConf, dictGet]
      rw [scoresOf_cons, confsOf_cons, scTotalWeight_cons, scWeightedSum_cons,
        scTotalWeight_confs_cons w _ _ _ _ hkeys, scWeightedSum_confs_cons w _ _ _ _ hkeys,
        ih1, ih2, totalWeight_cons, weightedSum_cons]
      simp [hhead]

/-- A weight lookup with default 0 in a dict of nonnegative weights is
nonnegative. -/
theorem dictGet_nonneg (w : List (String × ℚ)) (k : String)
    (hw : ∀ p ∈ w, 0 ≤ p.2) : 0 ≤ dictGet w k 0 := by
  induction w with
  | nil => simp [dictGet]
  | cons hd tl ih =>
      obtain ⟨k2, v⟩ := hd
      simp only [dictGet]
      split_ifs
      · exact hw (k2, v) (List.mem_cons_self _ _)
      · exact ih (fun p hp => hw p (List.mem_cons_of_mem _ hp))

/-- With nonnegative weights and confidences the engine-side total effective
weight is nonnegative. -/
theorem totalWeight_nonneg (w : List (String × ℚ))
    (rs : List (String × DetectionResult))
    (hw : ∀ p ∈ w, 0 ≤ p.2) (hc : ∀ p ∈ rs, 0 ≤ p.2.confidence) :
    0 ≤ totalWeight w rs := by
  apply List.sum_nonneg
  intro x hx
  simp only [totalWeight, List.mem_map] at hx
  obtain ⟨p, hp, rfl⟩ := hx
  exact mul_nonneg (dictGet_nonneg w p.1 hw) (hc p hp)

/-- C6 counterexample: on detector score 0.001 with weight 1 and confidence
1, the engine aggregation returns 0.001 but the returned `composite_score`
of `calculate_composite_score` is 0 (rounded to two decimals), so the two
are not equal as claimed. -/
theorem c6_rounding_counterexample :
    aggregate_scores [("statistical", 1)]
      [("statistical", { score := 1/1000, confidence := 1 })] = 1/1000 ∧
    calculate_composite_score [("statistical", 1)] [("statistical", 1/1000)]
        (some [("statistical", 1)]) =
      .ok { composite_score := 0
            component_scores := [("statistical", 1/1000)]
            score_breakdown := [("statistical", { raw_score := 1/1000, weight := 1,
                                                  confidence := 1, contribution := 1/1000 })]
            confidence := 1 } ∧
    (1/1000 : ℚ) ≠ 0 := by
  refine ⟨?_, ?_, by norm_num⟩
  · simp [aggregate_scores, totalWeight, weightedSum, dictGet]
  · simp [calculate_composite_score, overallConfidence, compositeRaw, scTotalWeight,
      scWeightedSum, scoreBreakdown, getConf, dictGet, round2, roundHalfEven]
    norm_num [Int.fract]

/-- C6 (amended): for detector-result dicts with distinct keys and
nonnegative weights and confidences, the engine aggregation equals the
UNROUNDED confidence-weighted average of the Risk Scorer
(Σ score×weight×confidence / Σ weight×confidence, defaulting to 50 at zero
total weight); the `composite_score` returned by
`calculate_composite_score` on the same inputs is that value rounded to two
decimals. -/
theorem c6_engine_scorer_agree (w : List (String × ℚ))
    (rs : List (String × DetectionResult))
    (hnd : (rs.map Prod.fst).Nodup)
    (hw : ∀ p ∈ w, 0 ≤ p.2) (hc : ∀ p ∈ rs, 0 ≤ p.2.confidence) :
    aggregate_scores w rs = compositeRaw w (scoresOf rs) (confsOf rs) ∧
    (∀ res, calculate_composite_score w (scoresOf rs) (some (confsOf rs)) = .ok res →
      res.composite_score = round2 (aggregate_scores w rs)) := by
  obtain ⟨h1, h2⟩ := scSums_eq w rs hnd
  have htw : 0 ≤ totalWeight w rs := totalWeight_nonneg w rs hw hc
  have hmain : aggregate_scores w rs = compositeRaw w (scoresOf rs) (confsOf rs) := by
    unfold aggregate_scores compositeRaw
    rw [h1, h2]
    by_cases h0 : totalWeight w rs = 0
    · rw [if_pos h0, if_neg (by rw [h0]; exact lt_irrefl 0)]
    · rw [if_neg h0, if_pos (lt_of_le_of_ne htw (Ne.symm h0))]
  refine ⟨hmain, ?_⟩
  intro res hres
  by_cases hrs : rs = []
  · subst hrs
    simp only [calculate_composite_score, scoresOf, confsOf, List.map_nil,
      overallConfidence, if_pos rfl] at hres
    obtain rfl := (Except.ok.injEq _ _).mp hres
    rw [hmain]
    rfl
  · have hconfs : ¬ (confsOf rs = []) := by
      simp [confsOf, hrs]
    simp only [calculate_composite_score, if_neg hconfs] at hres
    cases hov : overallConfidence w (confsOf rs) with
    | error e => rw [hov] at hres; simp at hres
    | ok oc =>
        rw [hov] at hres
        obtain rfl := (Except.ok.injEq _ _).mp hres
        rw [hmain]

/-- C6 witness: one statistical detector at score 80, confidence 1, default
weights — the engine aggregate and the unrounded scorer composite agree. -/
theorem c6_engine_scorer_agree_witness :
    aggregate_scores DEFAULT_WEIGHTS [("statistical", { score := 80, confidence := 1 })] =
      compositeRaw DEFAULT_WEIGHTS
        (scoresOf [("statistical", { score := 80, confidence := 1 })])
        (confsOf [("statistical", { score := 80, confidence := 1 })]) :=
  (c6_engine_scorer_agree DEFAULT_WEIGHTS
    [("statistical", { score := 80, confidence := 1 })]
    (by simp)
    (by
      intro p hp
      simp only [DEFAULT_WEIGHTS, List.mem_cons, List.not_mem_nil, or_false] at hp
      rcases hp with h | h | h <;> subst h <;> norm_num)
    (by
      intro p hp
      simp only [List.mem_cons, List.not_mem_nil, or_false] at hp
      subst hp
      norm_num)).1

/-- C7: a single registered detector with assigned weight 1 and reported
confidence 1 makes the aggregated composite (engine aggregation, and the
unrounded scorer composite on the same inputs) equal its raw score. -/
theorem c7_single_detector (w : List (String × ℚ)) (n : String)
    (r : DetectionResult) (hw : dictGet w n 0 = 1) (hc : r.confidence = 1) :
    aggregate_scores w [(n, r)] = r.score ∧
    compositeRaw w [(n, r.score)] [(n, r.confidence)] = r.score := by
  constructor
  · unfold aggregate_scores totalWeight weightedSum
    simp [hw, hc]
  · unfold compositeRaw scTotalWeight scWeightedSum
    simp [getConf, dictGet, hw, hc]

/-- C7 witness: the single detector "ml" with weight 1, confidence 1 and
raw score 73 yields composite 73 in both aggregations. -/
theorem c7_single_detector_witness :
    aggregate_scores [("ml", 1)] [("ml", { score := 73, confidence := 1 })] = 73 ∧
    compositeRaw [("ml", 1)] [("ml", 73)] [("ml", 1)] = 73 := by
  have h := c7_single_detector [("ml", (1:ℚ))] "ml" { score := 73, confidence := 1 }
    (by simp [dictGet]) rfl
  exact ⟨h.1, h.2⟩

/-- C9: with the default alert threshold 50, `should_alert` holds exactly
when the severity is not LOW (i.e. is MEDIUM, HIGH or CRITICAL), for every
weight configuration and every detector outcome. -/
theorem c9_alert_iff_not_low (detector_weights : List (String × ℚ))
    (detector_runs : List (String × Option DetectionResult)) :
    ((process_transaction 50 detector_weights detector_runs).should_alert = true ↔
      (process_transaction 50 detector_weights detector_runs).severity ≠
        AlertSeverity.LOW) := by
  unfold process_transaction get_severity
  dsimp only
  set c := aggregate_scores detector_weights (runDetectors detector_runs) with hc
  rcases le_or_lt 50 c with h | h
  · have hd : decide ((50:ℚ) ≤ c) = true := decide_eq_true h
    rw [hd]
    constructor
    · intro _
      split_ifs <;> simp_all
    · intro _
      rfl
  · have h90 : ¬ (90:ℚ) ≤ c := by linarith
    have h70 : ¬ (70:ℚ) ≤ c := by linarith
    have h50 : ¬ (50:ℚ) ≤ c := not_le.mpr h
    rw [if_neg h90, if_neg h70, if_neg h50]
    simp [h50]

/-- C9 witness: with no detector results the composite is the neutral 50,
the alert fires, and the severity is accordingly not LOW (it is MEDIUM). -/
theorem c9_alert_iff_not_low_witness :
    (process_transaction 50 DEFAULT_WEIGHTS []).severity ≠ AlertSeverity.LOW :=
  (c9_alert_iff_not_low DEFAULT_WEIGHTS []).mp
    (by simp [process_transaction, runDetectors, aggregate_scores, totalWeight, weightedSum])

/-- C10: appending to the detector-result dict a fresh entry with
confidence 0 (such as the neutral substitute for a failed detector) leaves
the aggregated composite unchanged: its effective weight is 0 so it adds
nothing to numerator or denominator. -/
theorem c10_zero_confidence_inert (w : List (String × ℚ))
    (rs : List (String × DetectionResult)) (n : String) (r : DetectionResult)
    (_hfresh : dictFind rs n = none) (hconf : r.confidence = 0) :
    aggregate_scores w (rs ++ [(n, r)]) = aggregate_scores w rs := by
  have ht : totalWeight w (rs ++ [(n, r)]) = totalWeight w rs := by
    unfold totalWeight
    rw [List.map_append, List.sum_append]
    simp [hconf]
  have hs : weightedSum w (rs ++ [(n, r)]) = weightedSum w rs := by
    unfold weightedSum
    rw [List.map_append, List.sum_append]
    simp [hconf]
  unfold aggregate_scores
  rw [ht, hs]

/-- C10 witness: adding the failed-detector substitute (score 99 would be
ignored anyway; confidence 0) to a one-detector dict leaves the composite
at 80. -/
theorem c10_zero_confidence_inert_witness :
    aggregate_scores DEFAULT_WEIGHTS
        ([("statistical", { score := 80, confidence := 1 })] ++
          [("behavioral", { score := 99, confidence := 0 })]) =
      aggregate_scores DEFAULT_WEIGHTS
        [("statistical", { score := 80, confidence := 1 })] :=
  c10_zero_confidence_inert DEFAULT_WEIGHTS _ "behavioral" _ (by simp [dictFind]) rfl

/-- C8 (amended): the Statistical detector confidence equals
`min(1, data_points / 3)` where `data_points` counts the present signals
among the FOUR tracked feature keys (amount, amount_zscore,
hourly_transaction_count, geo_risk_score); it is stepped in increments of
1/3 and always lies in [0,1]. -/
theorem c8_confidence_steps (features : StatFeatures) :
    (statistical_detect features).confidence = min 1 ((dataPoints features : ℚ) / 3) ∧
    0 ≤ (statistical_detect features).confidence ∧
    (statistical_detect features).confidence ≤ 1 ∧
    ((statistical_detect features).confidence = 0 ∨
      (statistical_detect features).confidence = 1/3 ∨
      (statistical_detect features).confidence = 2/3 ∨
      (statistical_detect features).confidence = 1) := by
  have h1 : (statistical_detect features).confidence =
      min 1 ((dataPoints features : ℚ) / 3) := rfl
  refine ⟨h1, ?_, ?_, ?_⟩
  · rw [h1]
    exact le_min (by norm_num) (by positivity)
  · rw [h1]
    exact min_le_left _ _
  · rw [h1]
    have hle : dataPoints features ≤ 4 := by
      unfold dataPoints
      split_ifs <;> norm_num
    set d := dataPoints features with hd
    interval_cases d <;> norm_num [min_def]

/-- C8 counterexample: no choice of THREE tracked feature keys explains the
returned confidence as `min(1, present/3)`: the code counts four keys, so
dropping any single key from a fully populated feature mapping still yields
confidence 1, which a three-field model cannot reproduce. -/
theorem c8_no_three_field_model :
    ¬ ∃ tracked : Finset (Fin 6), tracked.card = 3 ∧
      ∀ features : StatFeatures,
        (statistical_detect features).confidence =
          min 1 (((tracked.filter (fun i => presentAt features i = true)).card : ℚ) / 3) := by
  rintro ⟨T, hcard, h⟩
  have hpa : ∀ i j : Fin 6, (presentAt (allBut i) j = true) ↔ ¬ j = i := by decide
  have hdp : ∀ i : Fin 6, dataPoints (allBut i) = 3 ∨ dataPoints (allBut i) = 4 := by decide
  have hLHS : ∀ i : Fin 6, (statistical_detect (allBut i)).confidence = 1 := by
    intro i
    have h1 : (statistical_detect (allBut i)).confidence =
        min 1 ((dataPoints (allBut i) : ℚ) / 3) := rfl
    rcases hdp i with hd | hd <;> rw [h1, hd] <;> norm_num [min_def]
  have hmem : ∀ i : Fin 6, i ∉ T := by
    intro i hi
    have heq := h (allBut i)
    rw [hLHS i] at heq
    have hfilter : T.filter (fun j => presentAt (allBut i) j = true) = T.erase i := by
      rw [← Finset.filter_ne' T i]
      apply Finset.filter_congr
      intro j _
      exact hpa i j
    rw [hfilter, Finset.card_erase_of_mem hi, hcard] at heq
    norm_num [min_def] at heq
  have hT : T = ∅ := Finset.eq_empty_iff_forall_not_mem.mpr hmem
  rw [hT] at hcard
  simp at hcard
